import Mathlib

/-!
Shallow embedding of the e-learning FastAPI backend (src/main.py): the seven
relational tables, the uploads directory modelled as a list of stored relative
paths, and the request handlers the verified claims concern. State is passed
explicitly: each mutating handler returns its HTTP outcome together with the
updated database (and disk, when it touches the file store).
-/

namespace ELearning

/-- HTTP outcome of a handler: either a successful JSON payload, or a raised
HTTPException carrying a status code and a detail string. -/
inductive Outcome (α : Type) where
  | ok (value : α)
  | httpError (status : Nat) (detail : String)
  deriving DecidableEq, Repr

/-- Rendering of str(HTTPException(code, detail)), as interpolated by a blanket
`except Exception as e: ... detail=str(e)` clause: "code: detail". -/
def httpExcStr (code : Nat) (detail : String) : String :=
  toString code ++ ": " ++ detail

/-- Row of the users table (id, email, password digest, full_name, role,
profile_picture). -/
structure UserRow where
  id : Nat
  email : String
  password : String
  full_name : String
  role : String
  profile_picture : Option String
  deriving DecidableEq, Repr

/-- Row of the courses table. -/
structure CourseRow where
  id : Nat
  title : String
  description : String
  instructor_id : Nat
  deriving DecidableEq, Repr

/-- Row of the enrollments table. -/
structure EnrollmentRow where
  id : Nat
  course_id : Nat
  student_id : Nat
  enrolled_at : Nat
  deriving DecidableEq, Repr

/-- Row of the materials table. -/
structure MaterialRow where
  id : Nat
  course_id : Nat
  title : String
  file_path : String
  file_type : String
  uploaded_at : Nat
  deriving DecidableEq, Repr

/-- Row of the assignments table. -/
structure AssignmentRow where
  id : Nat
  course_id : Nat
  title : String
  description : String
  due_date : Option String
  instruction_file : Option String
  created_at : Nat
  deriving DecidableEq, Repr

/-- Row of the submissions table. Grades are set by the grading endpoint and
play no role in the claims; they are carried as opaque optional values. -/
structure SubmissionRow where
  id : Nat
  assignment_id : Nat
  student_id : Nat
  file_path : Option String
  content : String
  grade : Option Int
  feedback : Option String
  submitted_at : Nat
  graded_at : Option Nat
  deriving DecidableEq, Repr

/-- The relational database: the tables of the elearning schema that the
claims touch (announcements are never involved). -/
structure DB where
  users : List UserRow
  courses : List CourseRow
  enrollments : List EnrollmentRow
  materials : List MaterialRow
  assignments : List AssignmentRow
  submissions : List SubmissionRow
  deriving DecidableEq, Repr

/-- The empty database. -/
def emptyDB : DB :=
  { users := [], courses := [], enrollments := [], materials := [],
    assignments := [], submissions := [] }

/-- An uploaded file as the handlers see it: only its original filename
matters for the stored path and the classification. -/
structure Upload where
  filename : String
  deriving DecidableEq, Repr

/-- Body of POST /api/register. -/
structure UserRegister where
  email : String
  password : String
  full_name : String
  role : String
  deriving DecidableEq, Repr

/-- Body of POST /api/login. -/
structure UserLogin where
  email : String
  password : String
  deriving DecidableEq, Repr

/-- The profile fields returned by login and get_profile: the SELECT lists
id, email, full_name, role, profile_picture — the password digest is not
part of the result. -/
structure UserPublic where
  id : Nat
  email : String
  full_name : String
  role : String
  profile_picture : Option String
  deriving DecidableEq, Repr

/-- The course-detail payload of GET /api/courses/{course_id}: the course row
joined with the instructor name, plus the two computed flags. -/
structure CourseOut where
  id : Nat
  title : String
  description : String
  instructor_id : Nat
  instructor_name : String
  is_enrolled : Bool
  is_instructor : Bool
  deriving DecidableEq, Repr

/-- Python's path.lstrip('/'): drop every leading slash. -/
def lstripSlash (s : String) : String :=
  String.mk (s.toList.dropWhile (fun c => c == '/'))

/-- `if os.path.exists(p): os.remove(p)` on the modelled disk: remove the
path if stored; absence is a no-op. -/
def removeIfExists (disk : List String) (p : String) : List String :=
  disk.filter (fun q => q != p)

/-- Characters after the last '.' of a character list, if any. -/
def afterLastDot : List Char → Option (List Char)
  | [] => none
  | c :: cs =>
    match afterLastDot cs with
    | some r => some r
    | none => if c == '.' then some cs else none

/-- The extension part of os.path.splitext: starts at the last dot, except
that leading dots of the name never start an extension. -/
def splitextExt (name : String) : String :=
  let cs := name.toList
  let rest := cs.drop ((cs.takeWhile (fun c => c == '.')).length)
  match afterLastDot rest with
  | some r => String.mk ('.' :: r)
  | none => ""

/-- file_type classification used when a material file is stored
(src/main.py upload_material and update_material): ".pdf" maps to "pdf",
the four video extensions map to "video", anything else to "other"; the
extension is lower-cased first. -/
def classify (filename : String) : String :=
  let e := (splitextExt filename).toLower
  if e == ".pdf" then "pdf"
  else if e == ".mp4" || e == ".avi" || e == ".mov" || e == ".wmv" then "video"
  else "other"

/-- Relative storage path of a material file:
"uploads/materials/material_{course_id}_{timestamp}_{original name}". -/
def materialRelPath (course_id now : Nat) (orig : String) : String :=
  "uploads/materials/material_" ++ toString course_id ++ "_" ++ toString now
    ++ "_" ++ orig

/-- Relative storage path of an assignment instruction file written by
update_assignment:
"uploads/materials/assignment_{assignment_id}_{timestamp}_{original name}". -/
def assignmentUpdateRelPath (assignment_id now : Nat) (orig : String) : String :=
  "uploads/materials/assignment_" ++ toString assignment_id ++ "_"
    ++ toString now ++ "_" ++ orig

/-- Relative storage path of a submission file:
"uploads/submissions/submission_{assignment_id}_{student_id}_{timestamp}_{original name}". -/
def submissionRelPath (assignment_id student_id now : Nat) (orig : String) : String :=
  "uploads/submissions/submission_" ++ toString assignment_id ++ "_"
    ++ toString student_id ++ "_" ++ toString now ++ "_" ++ orig

/-- The file_path value submit_assignment stores: the root-relative path of
the written file when one is uploaded, NULL otherwise. -/
def submittedFilePath (assignment_id student_id now : Nat) :
    Option Upload → Option String
  | some f => some ("/" ++ submissionRelPath assignment_id student_id now f.filename)
  | none => none

/-- The disk after submit_assignment's optional file write. -/
def diskAfterSubmissionUpload (assignment_id student_id now : Nat)
    (disk : List String) : Option Upload → List String
  | some f => submissionRelPath assignment_id student_id now f.filename :: disk
  | none => disk

/-- Modelled from the spec: the MySQL schema (DDL) is not under src/; the spec
declares email uniqueness on users. This predicate holds exactly when the
INSERT in register would raise IntegrityError for a duplicate email. -/
def emailConflict (db : DB) (email : String) : Bool :=
  db.users.any (fun r => r.email == email)

/-- Modelled from the spec: the MySQL schema (DDL) is not under src/; the spec
declares the unique pair (course_id, student_id) on enrollments. This predicate
holds exactly when the INSERT in enroll_course would raise IntegrityError for
a duplicate pair. -/
def enrollConflict (db : DB) (course_id student_id : Nat) : Bool :=
  db.enrollments.any (fun e => e.course_id == course_id && e.student_id == student_id)

/-- Modelled from the spec: the MySQL schema (DDL) is not under src/; the spec
declares the unique pair (assignment_id, student_id) on submissions. This
predicate holds exactly when ON DUPLICATE KEY UPDATE fires in
submit_assignment. -/
def submissionKeyConflict (db : DB) (assignment_id student_id : Nat) : Bool :=
  db.submissions.any (fun s =>
    s.assignment_id == assignment_id && s.student_id == student_id)

/-- Modelled from the spec: the MySQL schema (DDL) is not under src/; the spec
(and the source comment in delete_assignment) state that submissions cascade
on assignment deletion: deleting an assignment row deletes every submissions
row referencing it. -/
def cascadeSubmissions (subs : List SubmissionRow) (assignment_id : Nat) :
    List SubmissionRow :=
  subs.filter (fun s => s.assignment_id != assignment_id)

/-- Projection of a users row to the public profile fields. -/
def userPublic (u : UserRow) : UserPublic :=
  { id := u.id, email := u.email, full_name := u.full_name, role := u.role,
    profile_picture := u.profile_picture }

/-- POST /api/register (src/main.py register): hash the password, INSERT the
user; IntegrityError on the unique email maps to HTTP 400 "Email already
exists". hash_password (sha256 hexdigest) is carried as the parameter
hashPw; nextId is the auto-increment id MySQL would assign. -/
def register (hashPw : String → String) (db : DB) (nextId : Nat)
    (u : UserRegister) : Outcome Nat × DB :=
  if emailConflict db u.email then
    (.httpError 400 "Email already exists", db)
  else
    (.ok nextId,
     { db with users := db.users ++
        [{ id := nextId, email := u.email, password := hashPw u.password,
           full_name := u.full_name, role := u.role, profile_picture := none }] })

/-- POST /api/login (src/main.py login): SELECT the public profile columns
WHERE email and password digest both match; a row yields it, no row yields
HTTP 401 "Invalid credentials" (this handler re-raises HTTPException, so the
401 survives the blanket except). -/
def login (hashPw : String → String) (db : DB) (u : UserLogin) :
    Outcome UserPublic :=
  match db.users.find? (fun r => r.email == u.email && r.password == hashPw u.password) with
  | some r => .ok (userPublic r)
  | none => .httpError 401 "Invalid credentials"

/-- GET /api/profile/{user_id} (src/main.py get_profile): SELECT the public
profile columns by id. When no row matches, the try block raises
HTTPException(404, "User not found") — but this handler, unlike its siblings,
has no `except HTTPException: raise` clause, so the blanket
`except Exception as e` catches the 404 and re-raises HTTPException(500,
str(e)). -/
def get_profile (db : DB) (user_id : Nat) : Outcome UserPublic :=
  match db.users.find? (fun u => u.id == user_id) with
  | some u => .ok (userPublic u)
  | none => .httpError 500 (httpExcStr 404 "User not found")

/-- GET /api/courses/{course_id} (src/main.py get_course): the course joined
with its instructor's name (no join row: 404 "Course not found"); then, when a
user_id is supplied — Python's `if user_id:` is false for None and for 0 —
is_enrolled is whether an enrollments row for (course_id, user_id) exists and
is_instructor is whether the course's instructor_id equals user_id; otherwise
both flags are false. -/
def get_course (db : DB) (course_id : Nat) (user_id : Option Nat) :
    Outcome CourseOut :=
  match db.courses.find? (fun c => c.id == course_id) with
  | none => .httpError 404 "Course not found"
  | some c =>
    match db.users.find? (fun u => u.id == c.instructor_id) with
    | none => .httpError 404 "Course not found"
    | some instr =>
      let flags : Bool × Bool :=
        match user_id with
        | some uid =>
          if uid != 0 then
            (db.enrollments.any (fun e => e.course_id == course_id && e.student_id == uid),
             c.instructor_id == uid)
          else (false, false)
        | none => (false, false)
      .ok { id := c.id, title := c.title, description := c.description,
            instructor_id := c.instructor_id, instructor_name := instr.full_name,
            is_enrolled := flags.1, is_instructor := flags.2 }

/-- POST /api/courses/{course_id}/enroll (src/main.py enroll_course): INSERT
the pair; IntegrityError on the unique (course_id, student_id) pair maps to
HTTP 400 "Already enrolled". -/
def enroll_course (db : DB) (nextId course_id student_id now : Nat) :
    Outcome String × DB :=
  if enrollConflict db course_id student_id then
    (.httpError 400 "Already enrolled", db)
  else
    (.ok "Enrolled successfully",
     { db with enrollments := db.enrollments ++
        [{ id := nextId, course_id := course_id, student_id := student_id,
           enrolled_at := now }] })

/-- GET /api/materials/{material_id} (src/main.py get_material): SELECT by
id; no row yields HTTP 404 "Material not found" (this handler re-raises
HTTPException, so the 404 survives). -/
def get_material (db : DB) (material_id : Nat) : Outcome MaterialRow :=
  match db.materials.find? (fun m => m.id == material_id) with
  | some m => .ok m
  | none => .httpError 404 "Material not found"

/-- PUT /api/materials/{material_id} (src/main.py update_material): fetch the
current row (none: 404, re-raised as such); with a new file, delete the old
file from disk (lstrip('/'), absence ignored), write the new file under a
fresh timestamped name, reclassify, and UPDATE title/file_path/file_type;
without a file, UPDATE only the title. -/
def update_material (db : DB) (disk : List String) (material_id : Nat)
    (title : String) (file : Option Upload) (now : Nat) :
    Outcome String × DB × List String :=
  match db.materials.find? (fun m => m.id == material_id) with
  | none => (.httpError 404 "Material not found", db, disk)
  | some cur =>
    match file with
    | some f =>
      let disk1 := removeIfExists disk (lstripSlash cur.file_path)
      let rel := materialRelPath cur.course_id now f.filename
      (.ok "Material updated",
       { db with materials := db.materials.map (fun m =>
          if m.id == material_id then
            { m with title := title, file_path := "/" ++ rel,
                     file_type := classify f.filename }
          else m) },
       rel :: disk1)
    | none =>
      (.ok "Material updated",
       { db with materials := db.materials.map (fun m =>
          if m.id == material_id then { m with title := title } else m) },
       disk)

/-- DELETE /api/materials/{material_id} (src/main.py delete_material): read
the stored file_path; when a row exists, remove the file at the
slash-stripped path from disk (absence ignored) and DELETE the row; when no
row exists, do nothing. Either way the handler returns the success
envelope. -/
def delete_material (db : DB) (disk : List String) (material_id : Nat) :
    Outcome String × DB × List String :=
  match db.materials.find? (fun m => m.id == material_id) with
  | some m =>
    (.ok "Material deleted",
     { db with materials := db.materials.filter (fun r => r.id != material_id) },
     removeIfExists disk (lstripSlash m.file_path))
  | none => (.ok "Material deleted", db, disk)

/-- PUT /api/assignments/{assignment_id} (src/main.py update_assignment):
with a new file, write it under a fresh timestamped name and UPDATE
title/description/due_date/instruction_file — the previously stored
instruction file is NOT deleted from disk; without a file, UPDATE only
title/description/due_date. -/
def update_assignment (db : DB) (disk : List String) (assignment_id : Nat)
    (title description : String) (due_date : Option String)
    (file : Option Upload) (now : Nat) : Outcome String × DB × List String :=
  match file with
  | some f =>
    let rel := assignmentUpdateRelPath assignment_id now f.filename
    (.ok "Assignment updated",
     { db with assignments := db.assignments.map (fun a =>
        if a.id == assignment_id then
          { a with title := title, description := description,
                   due_date := due_date, instruction_file := some ("/" ++ rel) }
        else a) },
     rel :: disk)
  | none =>
    (.ok "Assignment updated",
     { db with assignments := db.assignments.map (fun a =>
        if a.id == assignment_id then
          { a with title := title, description := description, due_date := due_date }
        else a) },
     disk)

/-- DELETE /api/assignments/{assignment_id} (src/main.py delete_assignment):
DELETE the assignment row; the store cascades the deletion to its
submissions. The handler performs no file operation: the disk is returned
untouched. -/
def delete_assignment (db : DB) (disk : List String) (assignment_id : Nat) :
    Outcome String × DB × List String :=
  (.ok "Assignment deleted",
   { db with assignments := db.assignments.filter (fun a => a.id != assignment_id),
             submissions := cascadeSubmissions db.submissions assignment_id },
   disk)

/-- POST /api/assignments/{assignment_id}/submit (src/main.py
submit_assignment): optionally write the uploaded file, then
INSERT ... ON DUPLICATE KEY UPDATE on the unique (assignment_id, student_id)
pair: a fresh pair inserts a row, an existing pair overwrites file_path and
content and refreshes submitted_at. -/
def submit_assignment (db : DB) (disk : List String) (nextId : Nat)
    (assignment_id student_id : Nat) (content : String) (file : Option Upload)
    (now : Nat) : Outcome String × DB × List String :=
  let file_path := submittedFilePath assignment_id student_id now file
  let disk1 := diskAfterSubmissionUpload assignment_id student_id now disk file
  if submissionKeyConflict db assignment_id student_id then
    (.ok "Assignment submitted",
     { db with submissions := db.submissions.map (fun s =>
        if s.assignment_id == assignment_id && s.student_id == student_id then
          { s with file_path := file_path, content := content, submitted_at := now }
        else s) },
     disk1)
  else
    (.ok "Assignment submitted",
     { db with submissions := db.submissions ++
        [{ id := nextId, assignment_id := assignment_id, student_id := student_id,
           file_path := file_path, content := content, grade := none,
           feedback := none, submitted_at := now, graded_at := none }] },
     disk1)

/-! Concrete states used by counterexamples and witnesses. -/

/-- A stand-in for the sha256 hexdigest used as hash_password, for concrete
witness states (the claims only need that registration and login apply the
same digest function). -/
def exampleHash (s : String) : String := s ++ "#"

/-- A registered user whose stored password digest is exampleHash "pw". -/
def authUser : UserRow :=
  { id := 1, email := "a@x", password := "pw#", full_name := "A",
    role := "student", profile_picture := none }

/-- A database holding only authUser. -/
def authDB : DB := { emptyDB with users := [authUser] }

/-- An assignment whose stored instruction file is
"/uploads/materials/old.pdf". -/
def orphanAssignment : AssignmentRow :=
  { id := 1, course_id := 1, title := "hw", description := "d",
    due_date := none, instruction_file := some "/uploads/materials/old.pdf",
    created_at := 0 }

/-- A database holding only orphanAssignment. -/
def orphanDB : DB := { emptyDB with assignments := [orphanAssignment] }

/-- An instructor user with id 1. -/
def flagInstructor : UserRow :=
  { id := 1, email := "i@x", password := "p#", full_name := "Ina",
    role := "instructor", profile_picture := none }

/-- A student user with id 2. -/
def flagStudent : UserRow :=
  { id := 2, email := "s@x", password := "p#", full_name := "Stu",
    role := "student", profile_picture := none }

/-- A course taught by flagInstructor. -/
def flagCourse : CourseRow :=
  { id := 1, title := "c", description := "d", instructor_id := 1 }

/-- flagCourse with its instructor and one enrolled student (id 2). -/
def flagDB : DB :=
  { emptyDB with
      users := [flagInstructor, flagStudent],
      courses := [flagCourse],
      enrollments := [{ id := 1, course_id := 1, student_id := 2, enrolled_at := 0 }] }

/-- flagCourse where its own instructor (id 1) also has an enrollments row
for the course — reachable, since enroll_course never checks the student
against the instructor. -/
def enrolledInstructorDB : DB :=
  { emptyDB with
      users := [flagInstructor],
      courses := [flagCourse],
      enrollments := [{ id := 1, course_id := 1, student_id := 1, enrolled_at := 0 }] }

/-- An existing submission of assignment 1 by student 2. -/
def upsertSub : SubmissionRow :=
  { id := 1, assignment_id := 1, student_id := 2,
    file_path := some "/uploads/submissions/s1", content := "v1",
    grade := none, feedback := none, submitted_at := 3, graded_at := none }

/-- A database holding only upsertSub. -/
def upsertDB : DB := { emptyDB with submissions := [upsertSub] }

/-- A database with one enrollment (course 3, student 4). -/
def dupEnrollDB : DB :=
  { emptyDB with enrollments := [{ id := 1, course_id := 3, student_id := 4, enrolled_at := 5 }] }

/-- A material whose stored file is "/uploads/materials/m.pdf". -/
def storedMaterial : MaterialRow :=
  { id := 1, course_id := 2, title := "m", file_path := "/uploads/materials/m.pdf",
    file_type := "pdf", uploaded_at := 0 }

/-- A database holding only storedMaterial. -/
def materialDB : DB := { emptyDB with materials := [storedMaterial] }

/-- A disk holding storedMaterial's file and one unrelated file. -/
def materialDisk : List String := ["uploads/materials/m.pdf", "x.txt"]

/-! Helper lemmas. -/

/-- Filtering by p after keeping only the elements refuting p yields nothing. -/
theorem filter_filter_not {α : Type} (p : α → Bool) (l : List α) :
    ((l.filter fun a => !(p a)).filter fun a => p a) = [] := by
  induction l with
  | nil => rfl
  | cons a t ih => cases h : p a <;> simp [List.filter_cons, h, ih]

/-- Filter commutes with a map that never changes the filtered key. -/
theorem filter_map_of_key_invariant {α : Type} (key : α → Bool) (g : α → α)
    (hg : ∀ a, key (g a) = key a) (l : List α) :
    (l.map g).filter key = (l.filter key).map g := by
  induction l with
  | nil => rfl
  | cons a t ih => cases h : key a <;> simp [List.filter_cons, hg a, h, ih]

/-- Mapping two functions that agree on the members of a list gives the same
result. -/
theorem map_congr_mem {α β : Type} (f g : α → β) (l : List α)
    (h : ∀ a ∈ l, f a = g a) : l.map f = l.map g := by
  induction l with
  | nil => rfl
  | cons a t ih =>
    simp only [List.map_cons, h a (List.mem_cons_self a t),
      ih (fun b hb => h b (List.mem_cons_of_mem a hb))]

/-! Claim theorems. -/

/-- Claim C1: the spec requires a missing single-resource fetch to yield the
distinct NotFound outcome (HTTP 404), and in particular GET
/api/profile/{user_id} for an absent user. The code instead raises its 404
inside the try block of get_profile, whose blanket `except Exception` (with no
`except HTTPException: raise` guard, unlike the sibling handlers) catches it
and re-raises it as HTTP 500: for every state with no matching users row, the
outcome is the Internal one. -/
theorem get_profile_missing_user_returns_500 (db : DB) (user_id : Nat)
    (h : db.users.find? (fun u => u.id == user_id) = none) :
    get_profile db user_id = .httpError 500 "404: User not found" := by
  unfold get_profile
  rw [h]
  rfl

/-- Witness for C1: the empty database has no user 1, and fetching that
profile yields HTTP 500, not 404. -/
theorem get_profile_missing_user_returns_500_witness :
    get_profile emptyDB 1 = .httpError 500 "404: User not found" :=
  get_profile_missing_user_returns_500 emptyDB 1 (by rfl)

/-- Claim C5: registering with an email already present in users yields the
ValidationConflict outcome (HTTP 400 "Email already exists") and leaves the
database — in particular the users table — unchanged. -/
theorem register_duplicate_email (hashPw : String → String) (db : DB)
    (nextId : Nat) (u : UserRegister) (h : emailConflict db u.email = true) :
    register hashPw db nextId u = (.httpError 400 "Email already exists", db) := by
  simp [register, h]

/-- Witness for C5: a second registration with authUser's email "a@x". -/
theorem register_duplicate_email_witness :
    register exampleHash authDB 2
        { email := "a@x", password := "zz", full_name := "B", role := "student" }
      = (.httpError 400 "Email already exists", authDB) :=
  register_duplicate_email exampleHash authDB 2
    { email := "a@x", password := "zz", full_name := "B", role := "student" } (by rfl)

/-- Claim C7: enrolling a (course, student) pair that already has an
enrollments row yields the ValidationConflict outcome (HTTP 400 "Already
enrolled") and leaves the database — in particular the enrollments table —
unchanged, so the one-enrollment-per-pair invariant is preserved. -/
theorem enroll_duplicate_conflict (db : DB) (nextId course_id student_id now : Nat)
    (h : enrollConflict db course_id student_id = true) :
    enroll_course db nextId course_id student_id now
      = (.httpError 400 "Already enrolled", db) := by
  simp [enroll_course, h]

/-- Witness for C7: re-enrolling the stored pair (course 3, student 4). -/
theorem enroll_duplicate_conflict_witness :
    enroll_course dupEnrollDB 9 3 4 6 = (.httpError 400 "Already enrolled", dupEnrollDB) :=
  enroll_duplicate_conflict dupEnrollDB 9 3 4 6 (by rfl)

/-- Claim C10: DELETE /api/materials/{material_id} for an id with no matching
row is not an error: it returns the success envelope and changes neither the
database nor the disk. -/
theorem delete_material_missing_is_noop (db : DB) (disk : List String)
    (material_id : Nat)
    (h : db.materials.find? (fun r => r.id == material_id) = none) :
    delete_material db disk material_id = (.ok "Material deleted", db, disk) := by
  simp [delete_material, h]

/-- Witness for C10: deleting material 7 from the database that stores only
material 1. -/
theorem delete_material_missing_is_noop_witness :
    delete_material materialDB materialDisk 7
      = (.ok "Material deleted", materialDB, materialDisk) :=
  delete_material_missing_is_noop materialDB materialDisk 7 (by rfl)

/-- Claim C2 is false as stated: updating assignment 1, whose stored
instruction file is "/uploads/materials/old.pdf", with a new file leaves the
old file on disk while no database row references it any more (the updated
row points at the freshly written file). -/
theorem update_assignment_orphans_old_file :
    (update_assignment orphanDB ["uploads/materials/old.pdf"] 1 "hw2" "d2"
        none (some { filename := "new.pdf" }) 7).2.2
      = ["uploads/materials/assignment_1_7_new.pdf", "uploads/materials/old.pdf"]
  ∧ ((update_assignment orphanDB ["uploads/materials/old.pdf"] 1 "hw2" "d2"
        none (some { filename := "new.pdf" }) 7).2.1.assignments.map
        AssignmentRow.instruction_file)
      = [some "/uploads/materials/assignment_1_7_new.pdf"] :=
  ⟨rfl, rfl⟩

/-- Claim C2 (amended): replacing a material's file deletes the previously
stored file from disk before storing the new one (provided the fresh
timestamped name differs from the old one), and deleting a material removes
its stored file; updating an assignment with a new file, however, stores the
new instruction file without deleting the old one — every path on disk
beforehand is still there afterwards — and deleting an assignment performs no
file operation at all. -/
theorem stored_file_replacement (db : DB) (disk : List String) :
    (∀ material_id title f now cur,
        db.materials.find? (fun m => m.id == material_id) = some cur →
        lstripSlash cur.file_path ≠ materialRelPath cur.course_id now f.filename →
        lstripSlash cur.file_path ∉
          (update_material db disk material_id title (some f) now).2.2)
  ∧ (∀ material_id cur,
        db.materials.find? (fun m => m.id == material_id) = some cur →
        lstripSlash cur.file_path ∉ (delete_material db disk material_id).2.2)
  ∧ (∀ assignment_id title description due_date f now p, p ∈ disk →
        p ∈ (update_assignment db disk assignment_id title description due_date
              (some f) now).2.2)
  ∧ (∀ assignment_id, (delete_assignment db disk assignment_id).2.2 = disk) := by
  refine ⟨?_, ?_, ?_, ?_⟩
  · intro material_id title f now cur hc hne
    simp only [update_material, hc]
    intro hmem
    rcases List.mem_cons.mp hmem with h1 | h1
    · exact hne h1
    · have h2 := (List.mem_filter.mp h1).2
      simp at h2
  · intro material_id cur hc
    simp only [delete_material, hc]
    intro hmem
    have h2 := (List.mem_filter.mp hmem).2
    simp at h2
  · intro assignment_id title description due_date f now p hp
    simp only [update_assignment]
    exact List.mem_cons_of_mem _ hp
  · intro assignment_id
    rfl

/-- Witness for the amended C2 at concrete states: the material file
"uploads/materials/m.pdf" is gone after an update with a new file and after a
delete, while an unrelated stored path survives an assignment update, and an
assignment delete returns the disk unchanged. -/
theorem stored_file_replacement_witness :
    (lstripSlash storedMaterial.file_path ∉
        (update_material materialDB materialDisk 1 "t" (some { filename := "n.pdf" }) 9).2.2)
  ∧ (lstripSlash storedMaterial.file_path ∉
        (delete_material materialDB materialDisk 1).2.2)
  ∧ ("x.txt" ∈ (update_assignment materialDB materialDisk 5 "t" "d" none
        (some { filename := "n.pdf" }) 9).2.2)
  ∧ ((delete_assignment materialDB materialDisk 5).2.2 = materialDisk) :=
  ⟨(stored_file_replacement materialDB materialDisk).1 1 "t" { filename := "n.pdf" } 9
      storedMaterial (by rfl) (by decide),
   (stored_file_replacement materialDB materialDisk).2.1 1 storedMaterial (by rfl),
   (stored_file_replacement materialDB materialDisk).2.2.1 5 "t" "d" none
      { filename := "n.pdf" } 9 "x.txt" (by decide),
   (stored_file_replacement materialDB materialDisk).2.2.2 5⟩

/-- Claim C8: deleting an existing material returns the success envelope,
removes the stored file (at the slash-stripped path) from disk, and deletes
the row, so a subsequent GET /api/materials/{material_id} yields the NotFound
outcome (HTTP 404). -/
theorem delete_material_removes_row_and_file (db : DB) (disk : List String)
    (material_id : Nat) (m : MaterialRow)
    (h : db.materials.find? (fun r => r.id == material_id) = some m) :
    (delete_material db disk material_id).1 = .ok "Material deleted"
  ∧ lstripSlash m.file_path ∉ (delete_material db disk material_id).2.2
  ∧ get_material (delete_material db disk material_id).2.1 material_id
      = .httpError 404 "Material not found" := by
  have hnone : (db.materials.filter (fun r => r.id != material_id)).find?
      (fun r => r.id == material_id) = none := by
    apply List.find?_eq_none.mpr
    intro x hx
    have hxq := (List.mem_filter.mp hx).2
    simp only [bne] at hxq
    simpa using hxq
  refine ⟨?_, ?_, ?_⟩
  · simp [delete_material, h]
  · simp only [delete_material, h]
    intro hmem
    have h2 := (List.mem_filter.mp hmem).2
    simp at h2
  · simp [delete_material, h, get_material, hnone]

/-- Witness for C8: deleting the stored material 1. -/
theorem delete_material_removes_row_and_file_witness :
    (delete_material materialDB materialDisk 1).1 = .ok "Material deleted"
  ∧ lstripSlash storedMaterial.file_path ∉ (delete_material materialDB materialDisk 1).2.2
  ∧ get_material (delete_material materialDB materialDisk 1).2.1 1
      = .httpError 404 "Material not found" :=
  delete_material_removes_row_and_file materialDB materialDisk 1 storedMaterial (by rfl)

/-- Claim C9: deleting an assignment removes the assignment row and — by the
store's cascade — every submissions row referencing it: afterwards no row of
either table carries that assignment id. -/
theorem delete_assignment_cascades (db : DB) (disk : List String)
    (assignment_id : Nat) :
    ((delete_assignment db disk assignment_id).2.1.assignments.filter
        (fun a => a.id == assignment_id)) = []
  ∧ ((delete_assignment db disk assignment_id).2.1.submissions.filter
        (fun s => s.assignment_id == assignment_id)) = [] := by
  constructor
  · exact filter_filter_not (fun a : AssignmentRow => a.id == assignment_id)
      db.assignments
  · exact filter_filter_not (fun s : SubmissionRow => s.assignment_id == assignment_id)
      db.submissions

/-- Claim C3 is false as stated: in enrolledInstructorDB the supplied user id
1 equals the course's instructor_id, yet the fetched course carries
is_enrolled = true (the instructor has an enrollments row for the course),
not the claimed is_enrolled = false. -/
theorem get_course_enrolled_instructor_counterexample :
    get_course enrolledInstructorDB 1 (some 1)
      = .ok { id := 1, title := "c", description := "d", instructor_id := 1,
              instructor_name := "Ina", is_enrolled := true, is_instructor := true } := by
  rfl

/-- Claim C3 (amended): for every existing course joined with its instructor
row, supplying a nonzero user_id equal to the instructor_id yields
is_instructor = true, and is_enrolled = false provided that user has no
enrollments row for the course (an enrolled instructor gets is_enrolled =
true); supplying a nonzero user_id that has an enrollments row yields
is_enrolled = true; supplying no user_id yields both flags false. -/
theorem get_course_flags (db : DB) (course_id uid : Nat) (c : CourseRow)
    (instr : UserRow)
    (hc : db.courses.find? (fun r => r.id == course_id) = some c)
    (hu : db.users.find? (fun r => r.id == c.instructor_id) = some instr) :
    (uid ≠ 0 → c.instructor_id = uid →
      db.enrollments.any (fun e => e.course_id == course_id && e.student_id == uid) = false →
      get_course db course_id (some uid)
        = .ok { id := c.id, title := c.title, description := c.description,
                instructor_id := c.instructor_id, instructor_name := instr.full_name,
                is_enrolled := false, is_instructor := true })
  ∧ (uid ≠ 0 →
      db.enrollments.any (fun e => e.course_id == course_id && e.student_id == uid) = true →
      get_course db course_id (some uid)
        = .ok { id := c.id, title := c.title, description := c.description,
                instructor_id := c.instructor_id, instructor_name := instr.full_name,
                is_enrolled := true, is_instructor := (c.instructor_id == uid) })
  ∧ (get_course db course_id none
        = .ok { id := c.id, title := c.title, description := c.description,
                instructor_id := c.instructor_id, instructor_name := instr.full_name,
                is_enrolled := false, is_instructor := false }) := by
  refine ⟨?_, ?_, ?_⟩
  · intro h0 hinstr hno
    subst hinstr
    simp [get_course, hc, hu, bne_iff_ne, h0, hno]
  · intro h0 hyes
    simp [get_course, hc, hu, bne_iff_ne, h0, hyes]
  · simp [get_course, hc, hu]

/-- Witness for the amended C3 on flagDB: instructor 1 (not enrolled),
student 2 (enrolled), and an anonymous fetch. -/
theorem get_course_flags_witness :
    (get_course flagDB 1 (some 1)
        = .ok { id := flagCourse.id, title := flagCourse.title,
                description := flagCourse.description,
                instructor_id := flagCourse.instructor_id,
                instructor_name := flagInstructor.full_name,
                is_enrolled := false, is_instructor := true })
  ∧ (get_course flagDB 1 (some 2)
        = .ok { id := flagCourse.id, title := flagCourse.title,
                description := flagCourse.description,
                instructor_id := flagCourse.instructor_id,
                instructor_name := flagInstructor.full_name,
                is_enrolled := true, is_instructor := (flagCourse.instructor_id == 2) })
  ∧ (get_course flagDB 1 none
        = .ok { id := flagCourse.id, title := flagCourse.title,
                description := flagCourse.description,
                instructor_id := flagCourse.instructor_id,
                instructor_name := flagInstructor.full_name,
                is_enrolled := false, is_instructor := false }) :=
  ⟨(get_course_flags flagDB 1 1 flagCourse flagInstructor (by rfl) (by rfl)).1
      (by decide) (by rfl) (by rfl),
   (get_course_flags flagDB 1 2 flagCourse flagInstructor (by rfl) (by rfl)).2.1
      (by decide) (by rfl),
   (get_course_flags flagDB 1 0 flagCourse flagInstructor (by rfl) (by rfl)).2.2⟩

/-- Claim C4: submitting an assignment when a row for the (assignment_id,
student_id) pair already exists creates no second row — the submissions table
keeps its length — and the rows with that key are exactly the old ones with
file_path and content overwritten by the new values and submitted_at
refreshed to the current timestamp (so one stored row stays one stored
row). -/
theorem submit_assignment_upsert (db : DB) (disk : List String) (nextId : Nat)
    (assignment_id student_id : Nat) (content : String) (file : Option Upload)
    (now : Nat) (h : submissionKeyConflict db assignment_id student_id = true) :
    ((submit_assignment db disk nextId assignment_id student_id content file now).2.1).submissions.length
      = db.submissions.length
  ∧ ((submit_assignment db disk nextId assignment_id student_id content file now).2.1).submissions.filter
        (fun s => s.assignment_id == assignment_id && s.student_id == student_id)
      = (db.submissions.filter
            (fun s => s.assignment_id == assignment_id && s.student_id == student_id)).map
          (fun s => { s with
            file_path := submittedFilePath assignment_id student_id now file,
            content := content, submitted_at := now }) := by
  simp only [submit_assignment, h, if_true]
  constructor
  · simp
  · rw [filter_map_of_key_invariant]
    · apply map_congr_mem
      intro s hs
      have hkey := (List.mem_filter.mp hs).2
      simp only [hkey, if_true]
    · intro a
      cases hk : (a.assignment_id == assignment_id && a.student_id == student_id) <;>
        simp [hk]

/-- Witness for C4: resubmitting (assignment 1, student 2) over upsertSub
with new content "v2", a new file and timestamp 8. -/
theorem submit_assignment_upsert_witness :
    ((submit_assignment upsertDB [] 9 1 2 "v2" (some { filename := "f2.txt" }) 8).2.1).submissions.length
      = upsertDB.submissions.length
  ∧ ((submit_assignment upsertDB [] 9 1 2 "v2" (some { filename := "f2.txt" }) 8).2.1).submissions.filter
        (fun s => s.assignment_id == 1 && s.student_id == 2)
      = (upsertDB.submissions.filter
            (fun s => s.assignment_id == 1 && s.student_id == 2)).map
          (fun s => { s with
            file_path := submittedFilePath 1 2 8 (some { filename := "f2.txt" }),
            content := "v2", submitted_at := 8 }) :=
  submit_assignment_upsert upsertDB [] 9 1 2 "v2" (some { filename := "f2.txt" }) 8 (by rfl)

/-- Claim C6: login yields the AuthFailure outcome (HTTP 401) exactly when no
users row matches both the given email and the digest of the given password;
when the lookup finds a row, it returns that row's stored profile fields —
the UserPublic projection, which carries no password digest. -/
theorem login_auth (hashPw : String → String) (db : DB) (u : UserLogin) :
    (login hashPw db u = .httpError 401 "Invalid credentials"
      ↔ ∀ r ∈ db.users, ¬(r.email = u.email ∧ r.password = hashPw u.password))
  ∧ (∀ r, db.users.find?
        (fun s => s.email == u.email && s.password == hashPw u.password) = some r →
      login hashPw db u = .ok (userPublic r)) := by
  constructor
  · cases hfind : db.users.find?
        (fun s => s.email == u.email && s.password == hashPw u.password) with
    | none =>
      have hall := List.find?_eq_none.mp hfind
      constructor
      · intro _ r hr
        have hnr := hall r hr
        simpa using hnr
      · intro _
        simp [login, hfind]
    | some r =>
      have hp := List.find?_some hfind
      have hmem := List.mem_of_find?_eq_some hfind
      constructor
      · intro hlog
        simp [login, hfind] at hlog
      · intro hall
        exfalso
        simp only [Bool.and_eq_true, beq_iff_eq] at hp
        exact hall r hmem ⟨hp.1, hp.2⟩
  · intro r hr
    simp [login, hr]

/-- Witness for C6 on authDB: a wrong password fails with 401, the correct
pair returns authUser's public profile. -/
theorem login_auth_witness :
    login exampleHash authDB { email := "a@x", password := "bad" }
      = .httpError 401 "Invalid credentials"
  ∧ login exampleHash authDB { email := "a@x", password := "pw" }
      = .ok (userPublic authUser) :=
  ⟨(login_auth exampleHash authDB { email := "a@x", password := "bad" }).1.mpr
      (by decide),
   (login_auth exampleHash authDB { email := "a@x", password := "pw" }).2 authUser
      (by decide)⟩

end ELearning
